import Mathlib

/-!
Shallow embedding of the real-time messaging gateway of the retrochat
backend (NestJS/TypeScript), covering:

* the presence registry (`src/gateway/redis.service.ts`),
* the direct- and group-message handlers and the agent streaming handlers
  (`src/gateway/events.gateway.ts`),
* message persistence (`src/chat/chat.service.ts`,
  `src/groups/group-message.service.ts`),
* the style-profile schedulers (`src/ai-friend/style-profile.service.ts`,
  `src/groups/group-ai-profile.service.ts`),
* the companion and group generation streams
  (`src/ai-friend/ai-friend.service.ts`, `src/groups/group-ai.service.ts`).

External collaborators (database, OpenAI provider, socket.io transport) are
modelled as explicit parameters: a database insert is a success flag, the
provider stream is the list of chunk payloads it yields plus an error flag,
and socket emission is recorded in an explicit trace of outbound events.
-/

/-! ### Presence registry — `src/gateway/redis.service.ts`

The Upstash client holds two key families, `user:{id}:socket` and
`socket:{id}:user`; both are modelled as total functions into `Option`.
The service field `redis : Redis | null` is modelled as
`Option RedisState`: `none` means the service is not configured and every
operation short-circuits exactly as the `if (!this.redis) return` guards do.
TTL expiry (86400 s) is wall-clock behaviour and is not modelled. -/

structure RedisState where
  userSocket : String → Option String
  socketUser : String → Option String

def RedisState.empty : RedisState :=
  { userSocket := fun _ => none, socketUser := fun _ => none }

/-- `setUserOnline` writes both keys (`redis.service.ts:40-52`). -/
def setUserOnlineState (st : RedisState) (userId socketId : String) : RedisState :=
  { userSocket := fun u => if u = userId then some socketId else st.userSocket u,
    socketUser := fun s => if s = socketId then some userId else st.socketUser s }

/-- `setUserOffline` looks up the user key, deletes the reverse key when it
exists, then deletes the user key; the deletion is keyed by `userId` alone
(`redis.service.ts:54-69`). -/
def setUserOfflineState (st : RedisState) (userId : String) : RedisState :=
  { userSocket := fun u => if u = userId then none else st.userSocket u,
    socketUser := fun s =>
      match st.userSocket userId with
      | some sid => if s = sid then none else st.socketUser s
      | none => st.socketUser s }

def setUserOnline (svc : Option RedisState) (userId socketId : String) :
    Option RedisState :=
  match svc with
  | none => none
  | some st => some (setUserOnlineState st userId socketId)

def setUserOffline (svc : Option RedisState) (userId : String) : Option RedisState :=
  match svc with
  | none => none
  | some st => some (setUserOfflineState st userId)

/-- `getSocketByUser` (`redis.service.ts:84-95`); `none` when unconfigured. -/
def getSocketByUser (svc : Option RedisState) (userId : String) : Option String :=
  match svc with
  | none => none
  | some st => st.userSocket userId

/-- `isUserOnline` (`redis.service.ts:97-109`); `false` when unconfigured. -/
def isUserOnline (svc : Option RedisState) (userId : String) : Bool :=
  match svc with
  | none => false
  | some st => (st.userSocket userId).isSome

/-- `EventsGateway.emitToUser` (`events.gateway.ts:106-114`): resolves the
socket and emits only when one is found; returns whether it delivered,
paired with the socket that received the event (`none` when nothing was
emitted). -/
def emitToUser (svc : Option RedisState) (userId : String) : Bool × Option String :=
  match getSocketByUser svc userId with
  | some socketId => (true, some socketId)
  | none => (false, none)

/-! ### Presence event histories (claim C3)

`handleConnection` calls `setUserOnline` (register) and `handleDisconnect`
calls `setUserOffline` (deregister, keyed by userId alone) —
`events.gateway.ts:51-103`. A connection history is a chronological list of
these events applied to the empty registry. -/

inductive PresenceEvent where
  | register (userId socketId : String)
  | deregister (userId : String)
deriving DecidableEq, Repr

def PresenceEvent.concerns : PresenceEvent → String → Bool
  | .register v _, u => v = u
  | .deregister v, u => v = u

def applyPresenceEvent (st : RedisState) : PresenceEvent → RedisState
  | .register u s => setUserOnlineState st u s
  | .deregister u => setUserOfflineState st u

/-- Apply a chronological event list (earliest first) to a state. -/
def applyPresenceEvents (es : List PresenceEvent) (st : RedisState) : RedisState :=
  es.foldl applyPresenceEvent st

/-- The most recent (= last, chronologically) event of the history that
concerns the given user, if any. -/
def lastEventFor (u : String) : List PresenceEvent → Option PresenceEvent
  | [] => none
  | e :: rest =>
    match lastEventFor u rest with
    | some e2 => some e2
    | none => if e.concerns u then some e else none

/-! ### Message persistence and the direct-message handler (claims C6, C7)

`ChatService.sendMessage` (`chat.service.ts:9-26`) inserts a row and returns
it; a database failure rejects the promise. The insert is modelled by a
success flag `dbOk`; generated columns (id, timestamp, isRead) are omitted,
the handler never reads them. -/

structure StoredMessage where
  fromUserId : String
  toUserId : String
  content : String
  isAIGenerated : Bool
deriving DecidableEq, Repr

def sendMessage (dbOk : Bool) (fromUserId toUserId content : String)
    (isAIGenerated : Bool) : Option StoredMessage :=
  if dbOk then some { fromUserId := fromUserId, toUserId := toUserId,
                      content := content, isAIGenerated := isAIGenerated }
  else none

/-- Outbound events of `handleMessageSend`: `message:receive` to the
recipient socket, `message:sent` to the sender socket, `message:error` to
the sender socket. -/
inductive DirectOut where
  | receive (toUserId socketId : String) (msg : StoredMessage)
  | sent (msg : StoredMessage)
  | error
deriving DecidableEq, Repr

/-- `EventsGateway.handleMessageSend` (`events.gateway.ts:126-185`): persist
first; on a persistence throw, catch and emit `message:error`; otherwise
emit `message:receive` to the recipient when a live socket is found and
then `message:sent` to the sender unconditionally. The fire-and-forget
style-profile trigger emits nothing and is modelled separately. -/
def handleMessageSend (svc : Option RedisState) (dbOk : Bool)
    (fromUserId toUserId content : String) : List DirectOut :=
  match sendMessage dbOk fromUserId toUserId content false with
  | none => [DirectOut.error]
  | some msg =>
    (match getSocketByUser svc toUserId with
     | some socketId => [DirectOut.receive toUserId socketId msg]
     | none => []) ++ [DirectOut.sent msg]

/-! ### Group messages and the group-message handler (claim C5) -/

structure GroupStoredMessage where
  groupId : String
  fromUserId : String
  content : String
  isAIGenerated : Bool
deriving DecidableEq, Repr

/-- `GroupMessageService.sendGroupMessage` (`group-message.service.ts`):
insert modelled by a success flag; mention extraction is not read by the
gateway handlers and is omitted. -/
def sendGroupMessage (dbOk : Bool) (groupId fromUserId content : String)
    (isAIGenerated : Bool) : Option GroupStoredMessage :=
  if dbOk then some { groupId := groupId, fromUserId := fromUserId,
                      content := content, isAIGenerated := isAIGenerated }
  else none

inductive GroupOut where
  | receive (userId socketId : String) (msg : GroupStoredMessage)
  | sent (msg : GroupStoredMessage)
  | error
deriving DecidableEq, Repr

/-- `EventsGateway.handleGroupMessageSend` (`events.gateway.ts:323-403`):
membership guard, persist, fan `group:message:receive` out to every member
other than the sender that has a live socket, then ack
`group:message:sent` to the sender. `members` is the freshly fetched
member list. -/
def handleGroupMessageSend (svc : Option RedisState) (isMember dbOk : Bool)
    (members : List String) (groupId fromUserId content : String) : List GroupOut :=
  if isMember then
    match sendGroupMessage dbOk groupId fromUserId content false with
    | none => [GroupOut.error]
    | some msg =>
      (members.filterMap fun m =>
        if m = fromUserId then none
        else (getSocketByUser svc m).map fun s => GroupOut.receive m s msg)
      ++ [GroupOut.sent msg]
  else [GroupOut.error]

/-! ### User style profiles — `src/ai-friend/style-profile.service.ts`

The `StyleProfile` row carries the fields read by the embedded operations:
`messageCount` (the eligible-message count recorded when the profile was
last recomputed) and `stylePrompt` (the rendered prompt). The remaining
columns (`commonPhrases`, `emojiUsage`, `averageMessageLength`,
`toneIndicators`, `lastUpdated`) are written by `updateStyleProfile` but
never read by the gateway paths embedded here. -/

structure StyleProfile where
  messageCount : Nat
  stylePrompt : String
deriving DecidableEq, Repr

/-- `StyleProfileService.shouldUpdateProfile`
(`style-profile.service.ts:210-240`). `profile` is the stored row (if any)
and `currentCount` the user's live count of non-AI-generated sent messages
(direct plus group). -/
def shouldUpdateProfile (profile : Option StyleProfile) (currentCount : Nat) : Bool :=
  match profile with
  | none => true
  | some p => decide (currentCount ≥ p.messageCount + 10)

/-! ### Group style profiles — `src/groups/group-ai-profile.service.ts` -/

structure GroupStyleProfile where
  messageCount : Nat
  stylePrompt : String
deriving DecidableEq, Repr

/-- `UPDATE_INTERVAL` (`group-ai-profile.service.ts:23`). -/
def UPDATE_INTERVAL : Nat := 20

/-- `GroupAIProfileService.getGroupStyleProfile`
(`group-ai-profile.service.ts:116-145`): returns the stored row but with
`messageCount` replaced by the live count of non-AI-generated group
messages (`liveCount`); `none` when no row exists. -/
def getGroupStyleProfile (stored : Option GroupStyleProfile) (liveCount : Nat) :
    Option GroupStyleProfile :=
  match stored with
  | none => none
  | some p => some { p with messageCount := liveCount }

/-- `GroupAIProfileService.shouldUpdateProfile`
(`group-ai-profile.service.ts:172-197`). Note it reads the profile through
`getGroupStyleProfile`, so `profile.messageCount` has already been
overwritten with the live count. -/
def groupShouldUpdateProfile (stored : Option GroupStyleProfile) (liveCount : Nat) :
    Bool :=
  match getGroupStyleProfile stored liveCount with
  | none => decide (liveCount ≥ UPDATE_INTERVAL)
  | some p => decide (liveCount ≥ p.messageCount + UPDATE_INTERVAL)

/-! ### Companion generation stream — `src/ai-friend/ai-friend.service.ts` -/

def AI_FRIEND_USER_ID : String := "kirhost"

def MINIMUM_MESSAGES_REQUIRED : Nat := 10

/-- `AIFriendService.hasMinimumData` (`ai-friend.service.ts:171-179`):
reads the stored profile and compares its recorded `messageCount` against
the minimum; `false` when no profile exists. -/
def hasMinimumData (profile : Option StyleProfile) : Bool :=
  match profile with
  | none => false
  | some p => decide (p.messageCount ≥ MINIMUM_MESSAGES_REQUIRED)

def stillLearningText : String :=
  "I\x27m still learning your chat style! Keep chatting with your friends, and after 10 messages, I\x27ll be able to chat just like you! 😊"

def analyzingText : String :=
  "I\x27m still analyzing your chat style. Send me a few more messages!"

def apologyText : String :=
  "Oops! Something went wrong. Let\x27s try that again!"

/-- Outcome of the provider-side streaming call: the non-empty delta
contents yielded in arrival order, and whether the call raised (either at
creation or mid-stream, after the listed chunks). -/
structure ProviderStream where
  chunks : List String
  errored : Bool
deriving DecidableEq, Repr

/-- `AIFriendService.generateAIResponseStream` (`ai-friend.service.ts:77-127`)
as the pair (chunks yielded in order, whether the provider was called).
Gate order follows the source: minimum-data check, then missing/empty
`stylePrompt` check (the TS falsy test on a string), then the provider
call whose `catch` yields one apology chunk and ends the generator. The
source skips empty delta contents (`if (content) yield content`), hence
the filter. -/
def generateAIResponseStream (profile : Option StyleProfile)
    (provider : ProviderStream) : List String × Bool :=
  if hasMinimumData profile then
    match profile with
    | none => ([analyzingText], false)
    | some p =>
      if p.stylePrompt = "" then ([analyzingText], false)
      else ((provider.chunks.filter fun c => c ≠ "")
              ++ (if provider.errored then [apologyText] else []), true)
  else ([stillLearningText], false)

/-! ### Companion streaming handler — `events.gateway.ts:238-320` (claims C1, C4) -/

inductive AIOut where
  | userMessageSent (msg : StoredMessage)
  | streamStart
  | streamChunk (chunk fullResponse : String)
  | streamEnd (msg : StoredMessage)
  | error
deriving DecidableEq, Repr

/-- The `for await` loop body: each chunk is appended to the running
`fullResponse` and emitted as an `ai-friend:stream-chunk` event carrying
both. -/
def chunkEvents : List String → String → List AIOut
  | [], _ => []
  | c :: cs, acc => AIOut.streamChunk c (acc ++ c) :: chunkEvents cs (acc ++ c)

/-- `EventsGateway.handleAIFriendMessage` (`events.gateway.ts:238-320`),
assuming both persistence calls succeed: store the user message, ack it,
emit `stream-start`, forward every generator chunk, store the assembled
`fullResponse` as an AI-generated message, emit `stream-end` with it.
Returns (outbound event trace to the caller socket, messages stored).
The fire-and-forget style-profile trigger stores no `ChatMessage` and is
modelled separately. -/
def handleAIFriendMessage (userId content : String) (profile : Option StyleProfile)
    (provider : ProviderStream) : List AIOut × List StoredMessage :=
  let userMsg : StoredMessage :=
    { fromUserId := userId, toUserId := AI_FRIEND_USER_ID,
      content := content, isAIGenerated := false }
  let chunks := (generateAIResponseStream profile provider).1
  let fullResponse := String.join chunks
  let aiMsg : StoredMessage :=
    { fromUserId := AI_FRIEND_USER_ID, toUserId := userId,
      content := fullResponse, isAIGenerated := true }
  (AIOut.userMessageSent userMsg :: AIOut.streamStart ::
     (chunkEvents chunks "" ++ [AIOut.streamEnd aiMsg]),
   [userMsg, aiMsg])

/-- Chunk payloads of the companion trace, in emission order. -/
def chunkPayloads (trace : List AIOut) : List String :=
  trace.filterMap fun e =>
    match e with
    | AIOut.streamChunk c _ => some c
    | _ => none

/-- Contents of the messages carried by `stream-end` events of the
companion trace. -/
def streamEndContents (trace : List AIOut) : List String :=
  trace.filterMap fun e =>
    match e with
    | AIOut.streamEnd m => some m.content
    | _ => none

/-! ### Group generation stream — `src/groups/group-ai.service.ts` -/

def GROUP_MINIMUM_MESSAGES_REQUIRED : Nat := 20

/-- `GroupAIService.hasMinimumData` (`group-ai.service.ts:163-172`): reads
the profile through `getGroupStyleProfile`, so the comparison uses the
live message count. -/
def groupHasMinimumData (stored : Option GroupStyleProfile) (liveCount : Nat) : Bool :=
  match getGroupStyleProfile stored liveCount with
  | none => false
  | some p => decide (p.messageCount ≥ GROUP_MINIMUM_MESSAGES_REQUIRED)

/-- Canned text of `group-ai.service.ts:87` (the source file carries the
emoji bytes mis-decoded, reproduced as-is). -/
def groupStillLearningText : String :=
  "I\x27m still learning your group\x27s chat style! Keep chatting, and after 20 messages, I\x27ll be able to chat just like you all! ðŸ˜Š"

def groupAnalyzingText : String :=
  "I\x27m still analyzing your group\x27s chat style. Send a few more messages!"

/-- `GroupAIService.generateGroupAIResponseStream`
(`group-ai.service.ts:79-130`), same shape as the companion generator. -/
def generateGroupAIResponseStream (stored : Option GroupStyleProfile)
    (liveCount : Nat) (provider : ProviderStream) : List String × Bool :=
  if groupHasMinimumData stored liveCount then
    match getGroupStyleProfile stored liveCount with
    | none => ([groupAnalyzingText], false)
    | some p =>
      if p.stylePrompt = "" then ([groupAnalyzingText], false)
      else ((provider.chunks.filter fun c => c ≠ "")
              ++ (if provider.errored then [apologyText] else []), true)
  else ([groupStillLearningText], false)

/-! ### Group AI mention handler — `events.gateway.ts:540-643` (claims C1, C4) -/

inductive GroupAIOut where
  | streamStart (userId socketId : String)
  | streamChunk (userId socketId chunk fullResponse : String)
  | streamEnd (userId socketId : String) (msg : GroupStoredMessage)
  | error
deriving DecidableEq, Repr

/-- One fan-out pass over the member list: emit an event to every member
with a live socket (`emitToUser` per member, in list order). -/
def fanOut (svc : Option RedisState) (members : List String)
    (mk : String → String → GroupAIOut) : List GroupAIOut :=
  members.filterMap fun m => (getSocketByUser svc m).map fun s => mk m s

/-- The group `for await` loop: per chunk, append to `fullResponse` and fan
the `group:ai:stream-chunk` event out to all online members. -/
def groupChunkEvents (svc : Option RedisState) (members : List String)
    (groupId : String) : List String → String → List GroupAIOut
  | [], _ => []
  | c :: cs, acc =>
    fanOut svc members (fun m s => GroupAIOut.streamChunk m s c (acc ++ c))
      ++ groupChunkEvents svc members groupId cs (acc ++ c)

/-- `GroupAIInitService.getGroupAIUserId` (`group-ai-init.service.ts`). -/
def getGroupAIUserId (groupId : String) : String := "group-ai-" ++ groupId

/-- `EventsGateway.handleGroupAIMention` (`events.gateway.ts:540-643`),
assuming persistence succeeds: membership guard; fan `stream-start` out to
all online members; forward every generator chunk to all online members;
store the assembled response as an AI-generated group message
(`GroupAIService.sendGroupAIMessage`, `group-ai.service.ts:135-158`); fan
`stream-end` with the stored message out to all online members. The
pre-generation `shouldUpdateProfile`/`updateGroupStyleProfile` step is
reflected in the `stored`/`liveCount` arguments, which are the profile
state as of generation time. -/
def handleGroupAIMention (svc : Option RedisState) (isMember : Bool)
    (members : List String) (groupId : String)
    (stored : Option GroupStyleProfile) (liveCount : Nat)
    (provider : ProviderStream) : List GroupAIOut × List GroupStoredMessage :=
  if isMember then
    let chunks := (generateGroupAIResponseStream stored liveCount provider).1
    let fullResponse := String.join chunks
    let aiMsg : GroupStoredMessage :=
      { groupId := groupId, fromUserId := getGroupAIUserId groupId,
        content := fullResponse, isAIGenerated := true }
    (fanOut svc members (fun m s => GroupAIOut.streamStart m s)
       ++ groupChunkEvents svc members groupId chunks ""
       ++ fanOut svc members (fun m s => GroupAIOut.streamEnd m s aiMsg),
     [aiMsg])
  else ([GroupAIOut.error], [])

/-- Chunk payloads of the group trace delivered to one user, in emission
order. -/
def deliveredChunks (trace : List GroupAIOut) (u : String) : List String :=
  trace.filterMap fun e =>
    match e with
    | GroupAIOut.streamChunk m _ c _ => if m = u then some c else none
    | _ => none

/-- Contents of the messages carried by `stream-end` events delivered to
one user. -/
def deliveredEndContents (trace : List GroupAIOut) (u : String) : List String :=
  trace.filterMap fun e =>
    match e with
    | GroupAIOut.streamEnd m _ msg => if m = u then some msg.content else none
    | _ => none

/-- A concrete configured presence registry used by witnesses: user `bob`
is online with socket `s1`, everyone else offline. -/
def demoPresence : Option RedisState :=
  some { userSocket := fun u => if u = "bob" then some ("s1") else none,
         socketUser := fun s => if s = "s1" then some ("bob") else none }

/-! ### Helper lemmas -/

theorem isUserOnline_eq_isSome_getSocket (svc : Option RedisState) (u : String) :
    isUserOnline svc u = (getSocketByUser svc u).isSome := by
  cases svc <;> rfl

theorem userSocket_applyPresenceEvent (st : RedisState) (e : PresenceEvent)
    (u : String) :
    (applyPresenceEvent st e).userSocket u =
      match e with
      | PresenceEvent.register v s => if u = v then some s else st.userSocket u
      | PresenceEvent.deregister v => if u = v then none else st.userSocket u := by
  cases e <;> rfl

theorem userSocket_applyPresenceEvents (es : List PresenceEvent)
    (st : RedisState) (u : String) :
    (applyPresenceEvents es st).userSocket u =
      match lastEventFor u es with
      | some (PresenceEvent.register _ s) => some s
      | some (PresenceEvent.deregister _) => none
      | none => st.userSocket u := by
  induction es generalizing st with
  | nil => rfl
  | cons e rest ih =>
    show (applyPresenceEvents rest (applyPresenceEvent st e)).userSocket u = _
    rw [ih]
    cases hl : lastEventFor u rest with
    | some e2 => cases e2 <;> simp [lastEventFor, hl]
    | none =>
      simp only [lastEventFor, hl]
      cases e with
      | register v s =>
        by_cases h : v = u
        · subst h
          simp [PresenceEvent.concerns, userSocket_applyPresenceEvent]
        · have h2 : ¬ u = v := fun hh => h hh.symm
          simp [PresenceEvent.concerns, h, h2, userSocket_applyPresenceEvent]
      | deregister v =>
        by_cases h : v = u
        · subst h
          simp [PresenceEvent.concerns, userSocket_applyPresenceEvent]
        · have h2 : ¬ u = v := fun hh => h hh.symm
          simp [PresenceEvent.concerns, h, h2, userSocket_applyPresenceEvent]

theorem lastEventFor_concerns (u : String) (es : List PresenceEvent)
    (e : PresenceEvent) (h : lastEventFor u es = some e) :
    e.concerns u = true := by
  induction es with
  | nil => cases h
  | cons e0 rest ih =>
    simp only [lastEventFor] at h
    cases hl : lastEventFor u rest with
    | some e2 =>
      rw [hl] at h
      obtain rfl : e2 = e := Option.some.inj h
      exact ih hl
    | none =>
      rw [hl] at h
      by_cases hc : e0.concerns u
      · simp only [hc, if_true] at h
        exact Option.some.inj h ▸ hc
      · simp [hc] at h

/-! ### Claim theorems -/

/-- C10: when the Redis handle is null (service unconfigured), every
presence operation is a silent no-op: `setUserOnline` and `setUserOffline`
leave the (absent) store unchanged, `isUserOnline` is false and
`getSocketByUser` is `none` for every user, hence `emitToUser` reports no
delivery and emits to no socket — all users appear offline at the public
interface. -/
theorem redis_unconfigured_all_noops (u s : String) :
    setUserOnline none u s = none ∧
    setUserOffline none u = none ∧
    isUserOnline none u = false ∧
    getSocketByUser none u = none ∧
    emitToUser none u = (false, none) :=
  ⟨rfl, rfl, rfl, rfl, rfl⟩

/-- C9: for a group with an existing style profile, `getGroupStyleProfile`
returns the stored row with `messageCount` replaced by the live count of
non-AI-generated group messages, whatever value was persisted at the last
recompute; consequently the group minimum-data check compares the live
count against its threshold (20). -/
theorem getGroupStyleProfile_returns_live_count (p : GroupStyleProfile)
    (liveCount : Nat) :
    getGroupStyleProfile (some p) liveCount
        = some { p with messageCount := liveCount } ∧
    groupHasMinimumData (some p) liveCount
        = decide (liveCount ≥ GROUP_MINIMUM_MESSAGES_REQUIRED) :=
  ⟨rfl, rfl⟩

/-- C2 (code bug): the claim that `shouldUpdateProfile` returns true iff
`currentCount - lastComputedCount ≥ INTERVAL` fails for groups. Because
`shouldUpdateProfile` reads the profile through `getGroupStyleProfile`,
which overwrites `messageCount` with the live count, the comparison
becomes `liveCount ≥ liveCount + 20`: once a profile exists the scheduler
never fires again, contradicting the code's own doc comment ("Updates
every 20 messages"). In particular a group whose profile recorded 0
messages and now has 20 live eligible messages is reported ineligible. -/
theorem group_shouldUpdateProfile_false_after_creation :
    (∀ (p : GroupStyleProfile) (liveCount : Nat),
        groupShouldUpdateProfile (some p) liveCount = false) ∧
    groupShouldUpdateProfile (some ⟨0, ("mimic the group")⟩) 20 = false := by
  refine ⟨fun p liveCount => ?_, rfl⟩
  simp [groupShouldUpdateProfile, getGroupStyleProfile, UPDATE_INTERVAL]

/-- C7: direct-message routing persists before delivering. If persistence
throws, the handler emits exactly the scoped `message:error` event (so
neither `message:receive` nor `message:sent` reaches anyone); if
persistence succeeds, exactly one `message:sent` acknowledgment is emitted
to the sender regardless of whether the recipient lookup found a live
socket. -/
theorem direct_message_persist_gates_delivery (svc : Option RedisState)
    (fromUserId toUserId content : String) :
    handleMessageSend svc false fromUserId toUserId content = [DirectOut.error] ∧
    (handleMessageSend svc true fromUserId toUserId content).count
        (DirectOut.sent { fromUserId := fromUserId, toUserId := toUserId,
                          content := content, isAIGenerated := false }) = 1 := by
  refine ⟨rfl, ?_⟩
  cases h : getSocketByUser svc toUserId <;>
    simp [handleMessageSend, sendMessage, h]

/-- C8: a companion-agent generation request by a subject without the
observed-message minimum (no profile, or recorded count < 10) yields
exactly the canned "still learning" chunk and terminates with no provider
call; a subject whose profile meets the minimum but has an empty rendered
`stylePrompt` yields exactly the canned "still analyzing" chunk, again
with no provider call; and a user whose profile records 5 messages has
`hasMinimumData = false` and receives the "still learning" text. -/
theorem companion_gating_no_provider_call (profile : Option StyleProfile)
    (q : StyleProfile) (provider : ProviderStream) :
    (hasMinimumData profile = false →
        generateAIResponseStream profile provider = ([stillLearningText], false)) ∧
    (q.messageCount ≥ MINIMUM_MESSAGES_REQUIRED → q.stylePrompt = "" →
        generateAIResponseStream (some q) provider = ([analyzingText], false)) ∧
    hasMinimumData (some ⟨5, ("any prompt")⟩) = false ∧
    generateAIResponseStream (some ⟨5, ("any prompt")⟩) provider
        = ([stillLearningText], false) := by
  refine ⟨fun h => ?_, fun hmin hprompt => ?_, rfl, rfl⟩
  · simp [generateAIResponseStream, h]
  · simp [generateAIResponseStream, hasMinimumData, hmin, hprompt]

/-- Witness for C8 at `profile = none`, `q = ⟨10, ""⟩`, an arbitrary
provider stream. -/
theorem companion_gating_no_provider_call_witness :
    hasMinimumData none = false ∧
    (10 : Nat) ≥ MINIMUM_MESSAGES_REQUIRED ∧
    ((⟨10, ""⟩ : StyleProfile).stylePrompt = "") ∧
    generateAIResponseStream none ⟨[("chunk")], false⟩ = ([stillLearningText], false) ∧
    generateAIResponseStream (some ⟨10, ""⟩) ⟨[("chunk")], false⟩
        = ([analyzingText], false) :=
  ⟨rfl, by decide, rfl,
   (companion_gating_no_provider_call none ⟨10, ""⟩ ⟨[("chunk")], false⟩).1 rfl,
   (companion_gating_no_provider_call none ⟨10, ""⟩ ⟨[("chunk")], false⟩).2.1
     (by decide) rfl⟩

/-- C1 counterexample: with a usable profile and a provider that errors
after yielding one chunk, the companion handler nevertheless stores a
`ChatMessage` with the generated flag (the assembled partial response plus
the apology) — the claim that nothing is persisted is false at this
input. -/
theorem provider_error_persists_generated_message :
    (((handleAIFriendMessage ("alice") ("hi") (some ⟨10, ("mimic")⟩)
        ⟨[("Hello")], true⟩).2.filter fun m => m.isAIGenerated).length = 1)
      ∧ ¬ (∀ m ∈ (handleAIFriendMessage ("alice") ("hi") (some ⟨10, ("mimic")⟩)
              ⟨[("Hello")], true⟩).2, m.isAIGenerated = false) := by
  refine ⟨rfl, fun h => ?_⟩
  have hmem := h _ (List.mem_cons_self _ _)
  have hmem2 := h _ (List.mem_cons_of_mem _ (List.mem_cons_self _ _))
  exact absurd hmem2 (by simp [handleAIFriendMessage])

/-- C1 amended: when the provider errors mid-stream (after zero or more
chunks), the caller receives the prior chunks followed by exactly one
canned apology chunk and the stream then terminates; the assembled
response — prior chunks plus the apology — IS persisted as a ChatMessage
with the generated flag (and carried by the stream-end event), alongside
the user's own message. -/
theorem provider_error_one_apology_and_assembled_persisted
    (userId content : String) (p : StyleProfile) (provider : ProviderStream)
    (hmin : hasMinimumData (some p) = true) (hprompt : p.stylePrompt ≠ "")
    (herr : provider.errored = true) :
    generateAIResponseStream (some p) provider
        = ((provider.chunks.filter fun c => c ≠ "") ++ [apologyText], true) ∧
    (handleAIFriendMessage userId content (some p) provider).2
        = [{ fromUserId := userId, toUserId := AI_FRIEND_USER_ID,
             content := content, isAIGenerated := false },
           { fromUserId := AI_FRIEND_USER_ID, toUserId := userId,
             content := String.join
               ((provider.chunks.filter fun c => c ≠ "") ++ [apologyText]),
             isAIGenerated := true }] := by
  have hgen : generateAIResponseStream (some p) provider
      = ((provider.chunks.filter fun c => c ≠ "") ++ [apologyText], true) := by
    simp [generateAIResponseStream, hmin, hprompt, herr]
  exact ⟨hgen, by simp [handleAIFriendMessage, hgen]⟩

/-- Witness for the amended C1 at a concrete erroring execution. -/
theorem provider_error_one_apology_witness :
    hasMinimumData (some ⟨10, ("mimic")⟩) = true ∧
    ((⟨10, ("mimic")⟩ : StyleProfile).stylePrompt ≠ "") ∧
    ((⟨[("Hello")], true⟩ : ProviderStream).errored = true) ∧
    (generateAIResponseStream (some ⟨10, ("mimic")⟩) ⟨[("Hello")], true⟩
        = ((([("Hello")] : List String).filter fun c => c ≠ "") ++ [apologyText], true) ∧
     (handleAIFriendMessage ("alice") ("hi") (some ⟨10, ("mimic")⟩)
        ⟨[("Hello")], true⟩).2
        = [{ fromUserId := ("alice"), toUserId := AI_FRIEND_USER_ID,
             content := ("hi"), isAIGenerated := false },
           { fromUserId := AI_FRIEND_USER_ID, toUserId := ("alice"),
             content := String.join
               ((([("Hello")] : List String).filter fun c => c ≠ "") ++ [apologyText]),
             isAIGenerated := true }]) :=
  ⟨rfl, by decide, rfl,
   provider_error_one_apology_and_assembled_persisted ("alice") ("hi")
     ⟨10, ("mimic")⟩ ⟨[("Hello")], true⟩ rfl (by decide) rfl⟩

/-- C6: for a direct message sent while the recipient is online and whose
persistence succeeds, the recipient socket receives exactly one
`message:receive` event carrying the message, the sender receives exactly
one `message:sent` acknowledgment, and the `message:receive` emission
precedes the `message:sent` emission. -/
theorem direct_message_exactly_once_in_order (svc : Option RedisState)
    (fromUserId toUserId content socketId : String)
    (honline : getSocketByUser svc toUserId = some socketId) :
    handleMessageSend svc true fromUserId toUserId content
        = [DirectOut.receive toUserId socketId
             { fromUserId := fromUserId, toUserId := toUserId,
               content := content, isAIGenerated := false },
           DirectOut.sent
             { fromUserId := fromUserId, toUserId := toUserId,
               content := content, isAIGenerated := false }] ∧
    (handleMessageSend svc true fromUserId toUserId content).count
        (DirectOut.receive toUserId socketId
          { fromUserId := fromUserId, toUserId := toUserId,
            content := content, isAIGenerated := false }) = 1 ∧
    (handleMessageSend svc true fromUserId toUserId content).count
        (DirectOut.sent
          { fromUserId := fromUserId, toUserId := toUserId,
            content := content, isAIGenerated := false }) = 1 ∧
    ∃ i j, i < j ∧
      (handleMessageSend svc true fromUserId toUserId content).get? i
        = some (DirectOut.receive toUserId socketId
            { fromUserId := fromUserId, toUserId := toUserId,
              content := content, isAIGenerated := false }) ∧
      (handleMessageSend svc true fromUserId toUserId content).get? j
        = some (DirectOut.sent
            { fromUserId := fromUserId, toUserId := toUserId,
              content := content, isAIGenerated := false }) := by
  have htrace : handleMessageSend svc true fromUserId toUserId content
      = [DirectOut.receive toUserId socketId
           { fromUserId := fromUserId, toUserId := toUserId,
             content := content, isAIGenerated := false },
         DirectOut.sent
           { fromUserId := fromUserId, toUserId := toUserId,
             content := content, isAIGenerated := false }] := by
    simp [handleMessageSend, sendMessage, honline]
  refine ⟨htrace, ?_, ?_, 0, 1, Nat.zero_lt_one, ?_, ?_⟩ <;> simp [htrace]

/-- Witness for C6: `bob` is online with socket `s1` in `demoPresence`. -/
theorem direct_message_exactly_once_in_order_witness :
    getSocketByUser demoPresence ("bob") = some ("s1") ∧
    (handleMessageSend demoPresence true ("alice") ("bob") ("hi")
        = [DirectOut.receive ("bob") ("s1")
             { fromUserId := ("alice"), toUserId := ("bob"),
               content := ("hi"), isAIGenerated := false },
           DirectOut.sent
             { fromUserId := ("alice"), toUserId := ("bob"),
               content := ("hi"), isAIGenerated := false }] ∧
     (handleMessageSend demoPresence true ("alice") ("bob") ("hi")).count
        (DirectOut.receive ("bob") ("s1")
          { fromUserId := ("alice"), toUserId := ("bob"),
            content := ("hi"), isAIGenerated := false }) = 1 ∧
     (handleMessageSend demoPresence true ("alice") ("bob") ("hi")).count
        (DirectOut.sent
          { fromUserId := ("alice"), toUserId := ("bob"),
            content := ("hi"), isAIGenerated := false }) = 1 ∧
     ∃ i j, i < j ∧
       (handleMessageSend demoPresence true ("alice") ("bob") ("hi")).get? i
         = some (DirectOut.receive ("bob") ("s1")
             { fromUserId := ("alice"), toUserId := ("bob"),
               content := ("hi"), isAIGenerated := false }) ∧
       (handleMessageSend demoPresence true ("alice") ("bob") ("hi")).get? j
         = some (DirectOut.sent
             { fromUserId := ("alice"), toUserId := ("bob"),
               content := ("hi"), isAIGenerated := false })) :=
  ⟨by decide,
   direct_message_exactly_once_in_order demoPresence ("alice") ("bob") ("hi")
     ("s1") (by decide)⟩

theorem chunkPayloads_chunkEvents (cs : List String) (acc : String) :
    chunkPayloads (chunkEvents cs acc) = cs := by
  induction cs generalizing acc with
  | nil => rfl
  | cons c cs ih =>
    simp only [chunkEvents, chunkPayloads, List.filterMap_cons]
    simp only [chunkPayloads] at ih
    rw [ih]

theorem streamEndContents_chunkEvents (cs : List String) (acc : String) :
    streamEndContents (chunkEvents cs acc) = [] := by
  induction cs generalizing acc with
  | nil => rfl
  | cons c cs ih =>
    simp only [chunkEvents, streamEndContents, List.filterMap_cons]
    simp only [streamEndContents] at ih
    rw [ih]

theorem chunkPayloads_append (a b : List AIOut) :
    chunkPayloads (a ++ b) = chunkPayloads a ++ chunkPayloads b :=
  List.filterMap_append a b _

theorem streamEndContents_append (a b : List AIOut) :
    streamEndContents (a ++ b) = streamEndContents a ++ streamEndContents b :=
  List.filterMap_append a b _

theorem deliveredChunks_append (a b : List GroupAIOut) (u : String) :
    deliveredChunks (a ++ b) u = deliveredChunks a u ++ deliveredChunks b u :=
  List.filterMap_append a b _

theorem deliveredEndContents_append (a b : List GroupAIOut) (u : String) :
    deliveredEndContents (a ++ b) u
      = deliveredEndContents a u ++ deliveredEndContents b u :=
  List.filterMap_append a b _

theorem deliveredChunks_fanOut_start (svc : Option RedisState)
    (members : List String) (u : String) :
    deliveredChunks (fanOut svc members fun m s => GroupAIOut.streamStart m s) u
      = [] := by
  induction members with
  | nil => rfl
  | cons m rest ih =>
    cases h : getSocketByUser svc m <;>
      simp only [fanOut, List.filterMap_cons, h, Option.map_none', Option.map_some',
        deliveredChunks] <;>
      simp only [fanOut, deliveredChunks] at ih <;>
      simpa using ih

theorem deliveredChunks_fanOut_end (svc : Option RedisState)
    (members : List String) (u : String) (msg : GroupStoredMessage) :
    deliveredChunks (fanOut svc members fun m s => GroupAIOut.streamEnd m s msg) u
      = [] := by
  induction members with
  | nil => rfl
  | cons m rest ih =>
    cases h : getSocketByUser svc m <;>
      simp only [fanOut, List.filterMap_cons, h, Option.map_none', Option.map_some',
        deliveredChunks] <;>
      simp only [fanOut, deliveredChunks] at ih <;>
      simpa using ih

theorem deliveredEndContents_fanOut_start (svc : Option RedisState)
    (members : List String) (u : String) :
    deliveredEndContents (fanOut svc members fun m s => GroupAIOut.streamStart m s) u
      = [] := by
  induction members with
  | nil => rfl
  | cons m rest ih =>
    cases h : getSocketByUser svc m <;>
      simp only [fanOut, List.filterMap_cons, h, Option.map_none', Option.map_some',
        deliveredEndContents] <;>
      simp only [fanOut, deliveredEndContents] at ih <;>
      simpa using ih

theorem deliveredChunks_fanOut_chunk (svc : Option RedisState)
    (members : List String) (u c full : String) :
    deliveredChunks (fanOut svc members fun m s => GroupAIOut.streamChunk m s c full) u
      = match getSocketByUser svc u with
        | some _ => List.replicate (members.count u) c
        | none => [] := by
  induction members with
  | nil => cases getSocketByUser svc u <;> rfl
  | cons m rest ih =>
    by_cases hmu : m = u
    · subst hmu
      cases h : getSocketByUser svc m with
      | none =>
        simp only [fanOut, List.filterMap_cons, h, Option.map_none']
        simp only [fanOut] at ih
        rw [ih, h]
      | some s =>
        simp only [fanOut, List.filterMap_cons, h, Option.map_some']
        simp only [deliveredChunks, List.filterMap_cons]
        simp only [fanOut, deliveredChunks] at ih
        rw [ih, h]
        simp [List.count_cons_self, List.replicate_succ]
    · have hum : ¬ u = m := fun hh => hmu hh.symm
      cases h : getSocketByUser svc m with
      | none =>
        simp only [fanOut, List.filterMap_cons, h, Option.map_none']
        simp only [fanOut] at ih
        rw [ih]
        cases hu : getSocketByUser svc u <;> simp [List.count_cons, hum]
      | some s =>
        simp only [fanOut, List.filterMap_cons, h, Option.map_some']
        simp only [deliveredChunks, List.filterMap_cons]
        simp only [fanOut, deliveredChunks] at ih
        simp only [hmu, if_false]
        rw [ih]
        cases hu : getSocketByUser svc u <;> simp [List.count_cons, hum]

theorem deliveredEndContents_fanOut_end (svc : Option RedisState)
    (members : List String) (u : String) (msg : GroupStoredMessage) :
    deliveredEndContents (fanOut svc members fun m s => GroupAIOut.streamEnd m s msg) u
      = match getSocketByUser svc u with
        | some _ => List.replicate (members.count u) msg.content
        | none => [] := by
  induction members with
  | nil => cases getSocketByUser svc u <;> rfl
  | cons m rest ih =>
    by_cases hmu : m = u
    · subst hmu
      cases h : getSocketByUser svc m with
      | none =>
        simp only [fanOut, List.filterMap_cons, h, Option.map_none']
        simp only [fanOut] at ih
        rw [ih, h]
      | some s =>
        simp only [fanOut, List.filterMap_cons, h, Option.map_some']
        simp only [deliveredEndContents, List.filterMap_cons]
        simp only [fanOut, deliveredEndContents] at ih
        rw [ih, h]
        simp [List.count_cons_self, List.replicate_succ]
    · have hum : ¬ u = m := fun hh => hmu hh.symm
      cases h : getSocketByUser svc m with
      | none =>
        simp only [fanOut, List.filterMap_cons, h, Option.map_none']
        simp only [fanOut] at ih
        rw [ih]
        cases hu : getSocketByUser svc u <;> simp [List.count_cons, hum]
      | some s =>
        simp only [fanOut, List.filterMap_cons, h, Option.map_some']
        simp only [deliveredEndContents, List.filterMap_cons]
        simp only [fanOut, deliveredEndContents] at ih
        simp only [hmu, if_false]
        rw [ih]
        cases hu : getSocketByUser svc u <;> simp [List.count_cons, hum]

theorem deliveredChunks_groupChunkEvents (svc : Option RedisState)
    (members : List String) (groupId u : String) (cs : List String) (acc : String) :
    deliveredChunks (groupChunkEvents svc members groupId cs acc) u
      = match getSocketByUser svc u with
        | some _ => cs.flatMap fun c => List.replicate (members.count u) c
        | none => [] := by
  induction cs generalizing acc with
  | nil => cases getSocketByUser svc u <;> rfl
  | cons c cs ih =>
    simp only [groupChunkEvents]
    rw [deliveredChunks_append, deliveredChunks_fanOut_chunk, ih]
    cases hu : getSocketByUser svc u <;> simp [List.flatMap_cons]

theorem deliveredEndContents_fanOut_chunk (svc : Option RedisState)
    (members : List String) (u c full : String) :
    deliveredEndContents
        (fanOut svc members fun m s => GroupAIOut.streamChunk m s c full) u = [] := by
  induction members with
  | nil => rfl
  | cons m rest ih =>
    cases h : getSocketByUser svc m <;>
      simp only [fanOut, List.filterMap_cons, h, Option.map_none', Option.map_some',
        deliveredEndContents] <;>
      simp only [fanOut, deliveredEndContents] at ih <;>
      simpa using ih

theorem deliveredEndContents_groupChunkEvents (svc : Option RedisState)
    (members : List String) (groupId u : String) (cs : List String) (acc : String) :
    deliveredEndContents (groupChunkEvents svc members groupId cs acc) u = [] := by
  induction cs generalizing acc with
  | nil => rfl
  | cons c cs ih =>
    simp only [groupChunkEvents]
    rw [deliveredEndContents_append, ih, List.append_nil,
      deliveredEndContents_fanOut_chunk]

theorem chunkPayloads_cons_userMessageSent (m : StoredMessage) (l : List AIOut) :
    chunkPayloads (AIOut.userMessageSent m :: l) = chunkPayloads l := rfl

theorem chunkPayloads_cons_streamStart (l : List AIOut) :
    chunkPayloads (AIOut.streamStart :: l) = chunkPayloads l := rfl

theorem chunkPayloads_singleton_streamEnd (m : StoredMessage) :
    chunkPayloads [AIOut.streamEnd m] = [] := rfl

theorem streamEndContents_cons_userMessageSent (m : StoredMessage) (l : List AIOut) :
    streamEndContents (AIOut.userMessageSent m :: l) = streamEndContents l := rfl

theorem streamEndContents_cons_streamStart (l : List AIOut) :
    streamEndContents (AIOut.streamStart :: l) = streamEndContents l := rfl

theorem streamEndContents_singleton_streamEnd (m : StoredMessage) :
    streamEndContents [AIOut.streamEnd m] = [m.content] := rfl

/-- C3: for every user and every chronological sequence of
register/deregister events applied to the presence registry (starting
empty), `isUserOnline` holds iff the most recent event concerning that
user is a register — equivalently, no deregister for the user (deregister
being keyed by userId alone, not by socket handle) has occurred since the
last register. -/
theorem isOnline_iff_last_event_register (es : List PresenceEvent) (u : String) :
    isUserOnline (some (applyPresenceEvents es RedisState.empty)) u = true ↔
    ∃ s, lastEventFor u es = some (PresenceEvent.register u s) := by
  have hchar := userSocket_applyPresenceEvents es RedisState.empty u
  have hdef : isUserOnline (some (applyPresenceEvents es RedisState.empty)) u
      = ((applyPresenceEvents es RedisState.empty).userSocket u).isSome := rfl
  rw [hdef, hchar]
  cases hl : lastEventFor u es with
  | none => simp [RedisState.empty]
  | some e =>
    cases e with
    | register v s =>
      have hc := lastEventFor_concerns u es _ hl
      simp only [PresenceEvent.concerns, decide_eq_true_eq] at hc
      subst hc
      simp
    | deregister v => simp

/-- C5: for a group message that passes the membership guard and persists,
a user receives `group:message:receive` iff they are a current group
member, are online at routing time, and are not the sender — i.e. the
receiving set is exactly (online group members) minus the sender. -/
theorem group_message_receivers_eq_online_members_minus_sender
    (svc : Option RedisState) (members : List String)
    (groupId fromUserId content u : String) :
    (∃ s, GroupOut.receive u s
        { groupId := groupId, fromUserId := fromUserId,
          content := content, isAIGenerated := false }
      ∈ handleGroupMessageSend svc true true members groupId fromUserId content)
    ↔ (u ∈ members ∧ isUserOnline svc u = true ∧ u ≠ fromUserId) := by
  have hred : handleGroupMessageSend svc true true members groupId fromUserId content
      = (members.filterMap fun m =>
          if m = fromUserId then none
          else (getSocketByUser svc m).map fun s => GroupOut.receive m s
            { groupId := groupId, fromUserId := fromUserId,
              content := content, isAIGenerated := false })
        ++ [GroupOut.sent
            { groupId := groupId, fromUserId := fromUserId,
              content := content, isAIGenerated := false }] := rfl
  rw [hred]
  constructor
  · rintro ⟨s, hmem⟩
    rw [List.mem_append] at hmem
    rcases hmem with hmem | hmem
    · rw [List.mem_filterMap] at hmem
      obtain ⟨m, hm, hf⟩ := hmem
      by_cases hms : m = fromUserId
      · simp [hms] at hf
      · rw [if_neg hms, Option.map_eq_some'] at hf
        obtain ⟨sock, hsock, heq⟩ := hf
        obtain ⟨rfl, rfl⟩ : m = u ∧ sock = s := by
          cases heq
          exact ⟨rfl, rfl⟩
        refine ⟨hm, ?_, hms⟩
        rw [isUserOnline_eq_isSome_getSocket, hsock]
        rfl
    · simp at hmem
  · rintro ⟨hmem, honline, hne⟩
    rw [isUserOnline_eq_isSome_getSocket] at honline
    obtain ⟨s, hs⟩ := Option.isSome_iff_exists.mp honline
    refine ⟨s, List.mem_append.mpr (Or.inl ?_)⟩
    rw [List.mem_filterMap]
    exact ⟨u, hmem, by rw [if_neg hne, hs]; rfl⟩

/-- C4: for every completed generation stream, the concatenation in
emission order of the chunk payloads equals the `content` field of the
message carried by the subsequent stream-end event — for the companion
handler on its caller socket, and for the group handler per delivered-to
member (the member list, freshly fetched from the store, has no duplicate
userIds). -/
theorem stream_chunks_concat_eq_streamEnd_content
    (userId content : String) (profile : Option StyleProfile)
    (provider : ProviderStream) (svc : Option RedisState) (members : List String)
    (groupId : String) (stored : Option GroupStyleProfile) (liveCount : Nat)
    (gprovider : ProviderStream) (u : String) (hnodup : members.Nodup) :
    streamEndContents (handleAIFriendMessage userId content profile provider).1
      = [String.join
          (chunkPayloads (handleAIFriendMessage userId content profile provider).1)] ∧
    ∀ e ∈ deliveredEndContents
        (handleGroupAIMention svc true members groupId stored liveCount gprovider).1 u,
      e = String.join (deliveredChunks
        (handleGroupAIMention svc true members groupId stored liveCount gprovider).1 u) := by
  constructor
  · have hred : (handleAIFriendMessage userId content profile provider).1
        = AIOut.userMessageSent
            { fromUserId := userId, toUserId := AI_FRIEND_USER_ID,
              content := content, isAIGenerated := false }
          :: AIOut.streamStart
          :: (chunkEvents (generateAIResponseStream profile provider).1 ""
              ++ [AIOut.streamEnd
                   { fromUserId := AI_FRIEND_USER_ID, toUserId := userId,
                     content := String.join (generateAIResponseStream profile provider).1,
                     isAIGenerated := true }]) := rfl
    rw [hred, streamEndContents_cons_userMessageSent, streamEndContents_cons_streamStart,
      streamEndContents_append, streamEndContents_chunkEvents,
      streamEndContents_singleton_streamEnd, chunkPayloads_cons_userMessageSent,
      chunkPayloads_cons_streamStart, chunkPayloads_append, chunkPayloads_chunkEvents,
      chunkPayloads_singleton_streamEnd]
    simp
  · have hgred : (handleGroupAIMention svc true members groupId stored liveCount gprovider).1
        = fanOut svc members (fun m s => GroupAIOut.streamStart m s)
          ++ groupChunkEvents svc members groupId
              (generateGroupAIResponseStream stored liveCount gprovider).1 ""
          ++ fanOut svc members (fun m s => GroupAIOut.streamEnd m s
              { groupId := groupId, fromUserId := getGroupAIUserId groupId,
                content := String.join
                  (generateGroupAIResponseStream stored liveCount gprovider).1,
                isAIGenerated := true }) := rfl
    rw [hgred, deliveredEndContents_append, deliveredEndContents_append,
      deliveredEndContents_fanOut_start, deliveredEndContents_groupChunkEvents,
      deliveredEndContents_fanOut_end, deliveredChunks_append, deliveredChunks_append,
      deliveredChunks_fanOut_start, deliveredChunks_groupChunkEvents,
      deliveredChunks_fanOut_end]
    cases hsock : getSocketByUser svc u with
    | none => simp
    | some s =>
      simp only [hsock]
      have hk := List.nodup_iff_count_le_one.mp hnodup u
      rcases Nat.le_one_iff_eq_zero_or_eq_one.mp hk with h0 | h1
      · simp [h0]
      · simp [h1]

/-- Witness for C4 at a concrete companion run and a concrete group run
with one online member. -/
theorem stream_chunks_concat_witness :
    (([("bob")] : List String).Nodup) ∧
    (streamEndContents (handleAIFriendMessage ("alice") ("hi") none ⟨[], false⟩).1
       = [String.join
           (chunkPayloads (handleAIFriendMessage ("alice") ("hi") none ⟨[], false⟩).1)] ∧
     ∀ e ∈ deliveredEndContents
         (handleGroupAIMention demoPresence true [("bob")] ("g") none 0 ⟨[], false⟩).1
         ("bob"),
       e = String.join (deliveredChunks
         (handleGroupAIMention demoPresence true [("bob")] ("g") none 0 ⟨[], false⟩).1
         ("bob"))) :=
  ⟨by decide,
   stream_chunks_concat_eq_streamEnd_content ("alice") ("hi") none ⟨[], false⟩
     demoPresence [("bob")] ("g") none 0 ⟨[], false⟩ ("bob") (by decide)⟩
